import Mathlib

/-!
# Zenith data plane and gang scheduler: a shallow embedding

This file embeds the claim-relevant parts of the Zenith repository in Lean:
the gang scheduler (`zenith-scheduler/src/{job,node,scheduler}.rs`), the
engine's plugin-chain consumer loop (`core/src/engine.rs`,
`core/src/wasm_host.rs`), the FFI publication entry point
(`core/src/lib.rs`), the SPSC ring buffer
(`zenith-runtime-cpu/src/buffer.rs`) and the sandboxed filesystem layer
(`host-api/src/fs/mod.rs`).  Wall-clock instants are modelled as `Int`
seconds (the code only ever compares second counts obtained from
`chrono`); `u64` casts are modelled by explicit `% 2^64` arithmetic.
-/

namespace Zenith

/-- `2^64`, the modulus of Rust `u64`/`usize` wrapping arithmetic. -/
def U64 : Nat := 2 ^ 64

/-- Job lifecycle states, from `job.rs` (`enum JobState`). -/
inductive JobState where
  | Pending
  | Queued
  | Scheduled
  | Running
  | Suspended
  | Completed
  | Failed
  | Cancelled
  | Timeout
deriving DecidableEq, Repr

/-- The four terminal states of the job state machine (spec §4.4). -/
def JobState.isTerminal : JobState → Bool
  | .Completed | .Failed | .Cancelled | .Timeout => true
  | _ => false

/-- A job instance, from `job.rs` (`struct Job`).  Only the descriptor
fields read by the embedded scheduler operations are kept
(`policy.priority`, `policy.gang_schedule`, `resources.gpu_count`); the
remaining descriptor fields (command, labels, …) are never inspected by
the verified code paths. -/
structure Job where
  id : String
  priority : Int
  gangSchedule : Bool
  gpuCount : Nat
  state : JobState
  submitTime : Int
  scheduleTime : Option Int
  startTime : Option Int
  endTime : Option Int
  allocatedNodes : List String
  allocatedGpus : List (String × List String)
  retryCount : Nat
  message : String
deriving DecidableEq, Repr

/-- `Job::transition` from `job.rs`: unconditionally sets the state and
message, then records a timestamp depending on the new state.  The
source performs no validation of the edge being taken. -/
def Job.transition (j : Job) (now : Int) (newState : JobState) (msg : String) : Job :=
  let j := { j with state := newState, message := msg }
  match newState with
  | .Scheduled => { j with scheduleTime := some now }
  | .Running => { j with startTime := some now }
  | .Completed | .Failed | .Cancelled | .Timeout => { j with endTime := some now }
  | _ => j

/-- GPU device inventory entry, from `node.rs` (`struct GpuDevice`).
The floating-point `utilization` field is omitted (never read by the
embedded operations); the other telemetry fields are kept. -/
structure GpuDevice where
  deviceId : String
  deviceName : String
  uuid : String
  totalMemory : Nat
  freeMemory : Nat
  temperature : Int
  allocated : Bool
  allocatedJobId : Option String
deriving DecidableEq, Repr

/-- Node topology, from `node.rs` (`struct NodeTopology`); only the GPU
list is read by the embedded operations. -/
structure NodeTopology where
  gpus : List GpuDevice
deriving DecidableEq, Repr

/-- Node health, from `node.rs` (`enum NodeHealth`). -/
inductive NodeHealth where
  | Healthy
  | Warning
  | Unhealthy
  | Unreachable
deriving DecidableEq, Repr

/-- A compute node, from `node.rs` (`struct Node`). -/
structure Node where
  id : String
  hostname : String
  ipAddress : String
  topology : NodeTopology
  health : NodeHealth
  lastHeartbeat : Int
  runningJobs : List String
deriving DecidableEq, Repr

/-- `Node::available_gpus`: the number of unallocated GPUs. -/
def Node.availableGpus (n : Node) : Nat :=
  (n.topology.gpus.filter (fun g => !g.allocated)).length

/-- `Node::is_stale`: no heartbeat within `maxAgeSeconds`. -/
def Node.isStale (n : Node) (now maxAgeSeconds : Int) : Bool :=
  now - n.lastHeartbeat > maxAgeSeconds

/-- Helper for `Node::allocate_gpus`: walk the GPU list marking the first
`count` unallocated devices as owned by `jobId`, returning the updated
list together with the marked device ids (the second `for` loop of the
source). -/
def allocMark (jobId : String) : List GpuDevice → Nat → List GpuDevice × List String
  | gpus, 0 => (gpus, [])
  | [], _ + 1 => ([], [])
  | g :: rest, k + 1 =>
    if g.allocated then
      let (gs, ids) := allocMark jobId rest (k + 1)
      (g :: gs, ids)
    else
      let g' := { g with allocated := true, allocatedJobId := some jobId }
      let (gs, ids) := allocMark jobId rest k
      (g' :: gs, g.deviceId :: ids)

/-- `Node::allocate_gpus` from `node.rs`.  The first pass only counts the
unallocated devices capped at `count` (`iter_mut().filter().take(count)`
collects references without writing); on shortage the method returns
`Err` having mutated nothing, which the embedding renders by returning
the unchanged node alongside the error. -/
def Node.allocateGpus (n : Node) (jobId : String) (count : Nat) :
    Node × Except String (List String) :=
  let availableLen :=
    ((n.topology.gpus.filter (fun g => !g.allocated)).take count).length
  if availableLen < count then
    (n, .error s!"Not enough GPUs: requested {count}, available {availableLen}")
  else
    let (gpus, allocatedIds) := allocMark jobId n.topology.gpus count
    ({ n with topology := { n.topology with gpus := gpus },
              runningJobs := n.runningJobs ++ [jobId] },
     .ok allocatedIds)

/-- Node registry, from `node.rs` (`struct NodeRegistry`).  The backing
`HashMap<String, Node>` is modelled as a list of nodes with (by
assumption where it matters) pairwise distinct ids; map iteration order
is arbitrary in the source, so no claim verified here may depend on the
order of this list beyond what the source guarantees. -/
structure NodeRegistry where
  nodes : List Node
  heartbeatTimeoutSeconds : Int
deriving DecidableEq, Repr

/-- `NodeRegistry::healthy_nodes`: health is `Healthy` and the node is
not stale. -/
def NodeRegistry.healthyNodes (r : NodeRegistry) (now : Int) : List Node :=
  r.nodes.filter (fun n =>
    n.health = NodeHealth.Healthy && !n.isStale now r.heartbeatTimeoutSeconds)

/-- `NodeRegistry::nodes_with_available_gpus`. -/
def NodeRegistry.nodesWithAvailableGpus (r : NodeRegistry) (now : Int) (count : Nat) :
    List Node :=
  (r.healthyNodes now).filter (fun n => count ≤ n.availableGpus)

/-- `NodeRegistry::is_node_healthy`: point query; `false` for unknown
nodes. -/
def NodeRegistry.isNodeHealthy (r : NodeRegistry) (now : Int) (nodeId : String) : Bool :=
  match r.nodes.find? (fun n => n.id = nodeId) with
  | some n => n.health = NodeHealth.Healthy && !n.isStale now r.heartbeatTimeoutSeconds
  | none => false

/-- A scheduling decision, from `scheduler.rs` (`struct
SchedulingDecision`).  The `allocations: HashMap<String, Vec<String>>`
is modelled as an association list; the node ids inserted are pairwise
distinct whenever the registry's are, so the list and the map agree. -/
structure SchedulingDecision where
  jobId : String
  allocations : List (String × List String)
  gangAllocated : Bool
deriving DecidableEq, Repr

/-- Total number of GPU ids carried by a decision. -/
def SchedulingDecision.totalGpus (d : SchedulingDecision) : Nat :=
  (d.allocations.map (fun a => a.2.length)).sum

/-- Scheduler configuration, from `scheduler.rs` (`struct
SchedulerConfig`).  `job_timeout_secs : u64` is a `Nat` (assumed
`< 2^64` where the comparison against the wrapped elapsed time
matters). -/
structure SchedulerConfig where
  maxScheduleBatch : Nat
  backfillEnabled : Bool
  topologyAware : Bool
  preferSameNode : Bool
  jobTimeoutSecs : Nat
  heartbeatTimeoutSecs : Nat
deriving DecidableEq, Repr

/-- Scheduler state, from `scheduler.rs` (`struct Scheduler`).  The
pending queue is a `PriorityQueue<String, i32>` whose `iter()` visits
entries in the arbitrary order of the underlying index map — i.e. in
insertion order, not in priority order — so it is modelled as an
insertion-ordered association list of `(job_id, priority)`.  The job
store `HashMap<String, Job>` is likewise an association list with
distinct keys. -/
structure SchedulerState where
  nodes : NodeRegistry
  pendingQueue : List (String × Int)
  jobs : List (String × Job)
deriving DecidableEq, Repr

/-- Lookup in the job store (`HashMap::get`). -/
def jobsLookup (jobs : List (String × Job)) (jobId : String) : Option Job :=
  (jobs.find? (fun p => p.1 = jobId)).map (fun p => p.2)

/-- In-place update of one entry of the job store (`HashMap::get_mut`
followed by mutation). -/
def jobsUpdate (jobs : List (String × Job)) (jobId : String) (j : Job) :
    List (String × Job) :=
  jobs.map (fun p => if p.1 = jobId then (p.1, j) else p)

/-- `Scheduler::submit`: transition to `Queued`, insert into the job
store, and push onto the pending queue with the descriptor's priority
(a fresh id lands at the end of the queue's index map). -/
def submit (st : SchedulerState) (now : Int) (job : Job) : SchedulerState × String :=
  let jobId := job.id
  let job := job.transition now .Queued "Submitted to scheduler"
  ({ st with jobs := st.jobs ++ [(jobId, job)],
             pendingQueue := st.pendingQueue ++ [(jobId, job.priority)] },
   jobId)

/-- `Scheduler::cancel`: allowed from `Pending`/`Queued`/`Scheduled`
(also dropping the queue entry) and from `Running`; any other state is
rejected with an error.  The `Running` arm's resource release is a
no-op in the source (the loop body only looks nodes up). -/
def cancel (st : SchedulerState) (now : Int) (jobId reason : String) :
    Except String SchedulerState :=
  match jobsLookup st.jobs jobId with
  | none => .error s!"Job not found: {jobId}"
  | some job =>
    match job.state with
    | .Pending | .Queued | .Scheduled =>
      .ok { st with jobs := jobsUpdate st.jobs jobId (job.transition now .Cancelled reason),
                    pendingQueue := st.pendingQueue.filter (fun p => p.1 ≠ jobId) }
    | .Running =>
      .ok { st with jobs := jobsUpdate st.jobs jobId (job.transition now .Cancelled reason) }
    | _ => .error s!"Cannot cancel job in state {reprStr job.state}"

/-- `Scheduler::schedule_cpu_job`: pick the first healthy node (in
registry order) and return a non-gang decision with no GPU ids. -/
def scheduleCpuJob (reg : NodeRegistry) (now : Int) (job : Job) :
    Option SchedulingDecision :=
  (reg.healthyNodes now).head?.map (fun node =>
    { jobId := job.id, allocations := [(node.id, [])], gangAllocated := false })

/-- Greedy multi-node pass of `Scheduler::gang_schedule`: walk the
candidates, taking `min remaining available` unallocated-GPU ids from
each until nothing remains; returns the accumulated allocations and the
remaining count. -/
def greedyAlloc : List Node → Nat → List (String × List String) × Nat
  | _, 0 => ([], 0)
  | [], remaining + 1 => ([], remaining + 1)
  | node :: rest, remaining + 1 =>
    let toAllocate := min (remaining + 1) node.availableGpus
    let gpuIds :=
      ((node.topology.gpus.filter (fun g => !g.allocated)).take toAllocate).map
        (fun g => g.deviceId)
    let (allocs, rem) := greedyAlloc rest (remaining + 1 - toAllocate)
    ((node.id, gpuIds) :: allocs, rem)

/-- `Scheduler::gang_schedule`: first (when `prefer_same_node`) try a
single candidate holding all required GPUs; otherwise check the total
availability and allocate greedily across the candidates. -/
def gangSchedule (cfg : SchedulerConfig) (job : Job) (candidates : List Node)
    (requiredGpus : Nat) : Option SchedulingDecision :=
  match if cfg.preferSameNode then
          candidates.find? (fun n => requiredGpus ≤ n.availableGpus)
        else none with
  | some node =>
    let gpuIds :=
      ((node.topology.gpus.filter (fun g => !g.allocated)).take requiredGpus).map
        (fun g => g.deviceId)
    some { jobId := job.id, allocations := [(node.id, gpuIds)], gangAllocated := true }
  | none =>
    let totalAvailable := (candidates.map Node.availableGpus).sum
    if totalAvailable < requiredGpus then
      none
    else
      let (allocations, remaining) := greedyAlloc candidates requiredGpus
      if remaining > 0 then
        none
      else
        some { jobId := job.id, allocations := allocations, gangAllocated := true }

/-- `Scheduler::spread_schedule` delegates to `gang_schedule` in the
source ("same as gang but with partial allocation allowed" — the body
is identical). -/
def spreadSchedule (cfg : SchedulerConfig) (job : Job) (candidates : List Node)
    (requiredGpus : Nat) : Option SchedulingDecision :=
  gangSchedule cfg job candidates requiredGpus

/-- `Scheduler::try_schedule_job`: CPU path for zero required GPUs,
otherwise gang or spread over the candidate nodes (healthy, ≥ 1 free
GPU). -/
def tryScheduleJob (reg : NodeRegistry) (cfg : SchedulerConfig) (now : Int)
    (job : Job) : Option SchedulingDecision :=
  let requiredGpus := job.gpuCount
  if requiredGpus = 0 then
    scheduleCpuJob reg now job
  else
    let candidates := reg.nodesWithAvailableGpus now 1
    if candidates.isEmpty then
      none
    else if job.gangSchedule then
      gangSchedule cfg job candidates requiredGpus
    else
      spreadSchedule cfg job candidates requiredGpus

/-- Body of the `schedule_cycle` loop: walk the queue entries in order
with their running index (`enumerate`), stopping once
`max_schedule_batch` entries have been visited; for each entry whose
job is found and placed, transition it to `Scheduled`, record its
allocations, and remember the decision and the id to drop from the
queue. -/
def scheduleCycleGo (reg : NodeRegistry) (cfg : SchedulerConfig) (now : Int) :
    List (String × Int) → Nat → List (String × Job) →
    List SchedulingDecision × List String × List (String × Job)
  | [], _, jobs => ([], [], jobs)
  | (jobId, _) :: rest, processed, jobs =>
    if cfg.maxScheduleBatch ≤ processed then
      ([], [], jobs)
    else
      match jobsLookup jobs jobId with
      | none => scheduleCycleGo reg cfg now rest (processed + 1) jobs
      | some job =>
        match tryScheduleJob reg cfg now job with
        | none => scheduleCycleGo reg cfg now rest (processed + 1) jobs
        | some decision =>
          let job' :=
            { job.transition now .Scheduled "Resources allocated" with
              allocatedNodes := decision.allocations.map (fun a => a.1),
              allocatedGpus := decision.allocations }
          let (ds, toRemove, jobs') :=
            scheduleCycleGo reg cfg now rest (processed + 1) (jobsUpdate jobs jobId job')
          (decision :: ds, jobId :: toRemove, jobs')

/-- `Scheduler::schedule_cycle`.  Note that the node registry is read
(via `try_schedule_job`) but never written: the returned state carries
`st.nodes` through unchanged, exactly as the source does.  The
successfully placed ids are removed from the queue after the loop. -/
def scheduleCycle (st : SchedulerState) (cfg : SchedulerConfig) (now : Int) :
    List SchedulingDecision × SchedulerState :=
  let (decisions, toRemove, jobs') :=
    scheduleCycleGo st.nodes cfg now st.pendingQueue 0 st.jobs
  (decisions,
   { st with jobs := jobs',
             pendingQueue := st.pendingQueue.filter (fun p => !toRemove.contains p.1) })

/-- `Scheduler::mark_job_started`: unconditional transition to
`Running` for any job found in the store. -/
def markJobStarted (st : SchedulerState) (now : Int) (jobId : String) :
    Except String SchedulerState :=
  match jobsLookup st.jobs jobId with
  | none => .error s!"Job not found: {jobId}"
  | some job =>
    let job' := job.transition now .Running "Job started on node"
    .ok { st with jobs := jobsUpdate st.jobs jobId job' }

/-- `Scheduler::mark_job_completed`: unconditional transition to
`Completed` or `Failed` for any job found in the store. -/
def markJobCompleted (st : SchedulerState) (now : Int) (jobId : String)
    (success : Bool) (msg : String) : Except String SchedulerState :=
  match jobsLookup st.jobs jobId with
  | none => .error s!"Job not found: {jobId}"
  | some job =>
    let newState := if success then JobState.Completed else JobState.Failed
    .ok { st with jobs := jobsUpdate st.jobs jobId (job.transition now newState msg) }

/-- `(now − start_time).num_seconds() as u64` from
`cleanup_zombie_jobs`: the signed second count cast to `u64` with
wrapping (a negative difference wraps to a value near `2^64`). -/
def elapsedU64 (now startTime : Int) : Nat :=
  ((now - startTime) % (U64 : Int)).toNat

/-- Per-job body of the `cleanup_zombie_jobs` loop: skip non-`Running`
jobs; time out a job whose wrapped elapsed seconds exceed a non-zero
`job_timeout_secs` (and `continue`, skipping the health check); fail a
job any of whose allocated nodes is unhealthy.  Returns the (possibly
transitioned) job and this job's contribution to the cleaned count. -/
def cleanupJob (reg : NodeRegistry) (cfg : SchedulerConfig) (now : Int) (job : Job) :
    Job × Nat :=
  if job.state ≠ JobState.Running then
    (job, 0)
  else
    let timedOut :=
      cfg.jobTimeoutSecs > 0 &&
        (match job.startTime with
         | some startTime => decide (cfg.jobTimeoutSecs < elapsedU64 now startTime)
         | none => false)
    if timedOut then
      (job.transition now .Timeout
        s!"Job exceeded timeout of {cfg.jobTimeoutSecs} seconds", 1)
    else
      let anyDead := job.allocatedNodes.any (fun nid => !reg.isNodeHealthy now nid)
      if anyDead then
        (job.transition now .Failed "Allocated node(s) became unhealthy", 1)
      else
        (job, 0)

/-- `Scheduler::cleanup_zombie_jobs`: apply `cleanupJob` to every job in
the store and return the cleaned count together with the new state. -/
def cleanupZombieJobs (st : SchedulerState) (cfg : SchedulerConfig) (now : Int) :
    Nat × SchedulerState :=
  let results := st.jobs.map (fun p => (p.1, cleanupJob st.nodes cfg now p.2))
  ((results.map (fun p => p.2.2)).sum,
   { st with jobs := results.map (fun p => (p.1, p.2.1)) })

/-! ## Engine consumer loop and plugin chain (`core/src/engine.rs`,
`core/src/wasm_host.rs`) -/

/-- Outcome of calling one loaded plugin's exported `on_event`
function, as produced by the wasmtime host: the export may be missing,
the call may trap, or it may return an `i32`. -/
inductive WasmCallOutcome where
  | noExport
  | trap
  | value (v : Int)
deriving DecidableEq, Repr

/-- Result of `WasmPlugin::on_event` as seen by the engine:
`Ok(true)`/`Ok(false)` or `Err`. -/
inductive PluginResult where
  | ok (allowed : Bool)
  | err
deriving DecidableEq, Repr

/-- `WasmPlugin::on_event` from `wasm_host.rs`: a missing export is
allow-by-default `Ok(true)`; a trap propagates as `Err`; a returned
value `v` yields `Ok(v ≠ 0)`. -/
def onEvent : WasmCallOutcome → PluginResult
  | .noExport => .ok true
  | .trap => .err
  | .value v => .ok (v ≠ 0)

/-- One iteration of the per-event loop in `ZenithEngine::start`: an
`Ok(res)` with `res = false` clears the `allowed` flag; an `Err` is
only logged (`eprintln!`) and leaves it untouched. -/
def chainStep (allowed : Bool) (r : PluginResult) : Bool :=
  match r with
  | .ok res => if !res then false else allowed
  | .err => allowed

/-- The per-event verdict loop of `ZenithEngine::start`: `allowed`
starts `true` and each plugin's result is folded through
`chainStep`. -/
def chainAllowed (results : List PluginResult) : Bool :=
  results.foldl chainStep true

/-- The verdict of the consumer loop for one popped event, given each
registered plugin's raw `on_event` outcome in registration order:
`true` = the event is accepted, `false` = the event is dropped. -/
def consumerVerdict (outcomes : List WasmCallOutcome) : Bool :=
  chainAllowed (outcomes.map onEvent)

/-! ## SPSC ring buffer (`zenith-runtime-cpu/src/buffer.rs`) -/

/-- Wrapping `usize` subtraction `a.wrapping_sub(b)` (64-bit). -/
def wrapSub (a b : Nat) : Nat :=
  (a + U64 - b % U64) % U64

/-- Wrapping `usize` increment `a.wrapping_add(1)` (64-bit). -/
def wrapAdd1 (a : Nat) : Nat :=
  (a + 1) % U64

/-- `SpscRingBuffer<T>` from `buffer.rs`: a slot array (a
`MaybeUninit` slot is an `Option`), the power-of-two capacity, the mask
`capacity − 1`, and the monotonically wrapping producer (`head`) and
consumer (`tail`) counters.  The atomics' memory orderings have no
observable effect in this sequential model. -/
structure SpscRing (α : Type) where
  buffer : List (Option α)
  capacity : Nat
  mask : Nat
  head : Nat
  tail : Nat
deriving Repr

/-- `SpscRingBuffer::new` (for a positive requested capacity, which the
source asserts): rounds the capacity up to the next power of two and
preallocates that many uninitialised slots. -/
def SpscRing.new (α : Type) (capacity : Nat) : SpscRing α :=
  let cap := capacity.nextPowerOfTwo
  { buffer := List.replicate cap none,
    capacity := cap,
    mask := cap - 1,
    head := 0,
    tail := 0 }

/-- `SpscRingBuffer::try_push`: fail (returning the item) when
`head − tail ≥ capacity` (wrapping), otherwise write slot
`head & mask` and advance `head`. -/
def SpscRing.tryPush (r : SpscRing α) (item : α) : Except α (SpscRing α) :=
  if r.capacity ≤ wrapSub r.head r.tail then
    .error item
  else
    let index := r.head &&& r.mask
    .ok { r with buffer := r.buffer.set index (some item), head := wrapAdd1 r.head }

/-- `SpscRingBuffer::try_pop`: `none` when `tail = head`, otherwise
read slot `tail & mask` and advance `tail`.  (The source leaves the
slot's bits in place after `assume_init_read`; the model does too.) -/
def SpscRing.tryPop (r : SpscRing α) : Option (α × SpscRing α) :=
  if r.tail = r.head then
    none
  else
    let index := r.tail &&& r.mask
    match r.buffer.get? index with
    | some (some item) => some (item, { r with tail := wrapAdd1 r.tail })
    | _ => none

/-- `SpscRingBuffer::len`: `head.wrapping_sub(tail)`. -/
def SpscRing.len (r : SpscRing α) : Nat :=
  wrapSub r.head r.tail

/-- The state invariant of a live ring: counters below `2^64`, the
buffer really has `capacity` slots, the capacity is the positive power
of two produced by `new`, the mask is `capacity − 1`, the ring is not
over-full, and every slot between `tail` and `head` was written by a
push (so `try_pop`'s `assume_init_read` always finds a value). -/
def SpscRing.WF (r : SpscRing α) : Prop :=
  r.head < U64 ∧ r.tail < U64 ∧ r.buffer.length = r.capacity ∧
    0 < r.capacity ∧ r.capacity ≤ 2 ^ 63 ∧ (∃ k, r.capacity = 2 ^ k) ∧
    r.mask = r.capacity - 1 ∧ wrapSub r.head r.tail ≤ r.capacity ∧
    (∀ i : Nat, i < wrapSub r.head r.tail →
      ∃ a, r.buffer.get? (wrapSub r.head (i + 1) &&& r.mask) = some (some a))

/-! ## FFI publication surface (`core/src/lib.rs`, `zenith_publish`) -/

/-- Result of the `catch_unwind` barrier around the body of an FFI
entry point: either the guarded computation's value, or a caught
panic. -/
inductive Caught (α : Type) where
  | ok (a : α)
  | panicked
deriving DecidableEq, Repr

/-- What happened inside `zenith_publish`'s guarded body: the Arrow C
Data Interface conversion (`arrow::ffi::from_ffi`) result, and — when
conversion succeeded — the ring `push` result. -/
structure PublishAttempt where
  conversion : Except Unit Unit
  push : Except Unit Unit
deriving Repr

/-- The status-code match inside `zenith_publish`'s `catch_unwind`
closure: conversion failure is `FFI_ERROR`, a full ring is
`BUFFER_FULL`, success is `SUCCESS`. -/
def publishBody (attempt : PublishAttempt) : Int :=
  match attempt.conversion with
  | .ok _ =>
    match attempt.push with
    | .ok _ => 0
    | .error _ => -2
  | .error _ => -4

/-- `zenith_publish` from `core/src/lib.rs`: the three pointers are
null-checked first (`NULL_POINTER` before the panic barrier); the body
then runs under `catch_unwind`, a caught panic yielding `PANIC`.  A
pointer is modelled by whether it is null; the guarded body by a
`Caught PublishAttempt`. -/
def zenithPublish (engineNull arrayNull schemaNull : Bool)
    (guarded : Caught PublishAttempt) : Int :=
  if engineNull || arrayNull || schemaNull then
    -1
  else
    match guarded with
    | .ok attempt => publishBody attempt
    | .panicked => -3

/-! ## Sandboxed filesystem (`host-api/src/fs/mod.rs`) -/

/-- A Rust `PathBuf`, modelled as an absolute flag plus the list of
(non-empty, separator-free) components. -/
structure RustPath where
  absolute : Bool
  components : List String
deriving DecidableEq, Repr

/-- `Path::join`: an absolute right operand replaces the whole path,
otherwise the components are appended. -/
def RustPath.join (base p : RustPath) : RustPath :=
  if p.absolute then p else { base with components := base.components ++ p.components }

/-- `Path::parent`: drop the last component; `None` at a root or empty
path. -/
def RustPath.parent (p : RustPath) : Option RustPath :=
  match p.components with
  | [] => none
  | _ :: _ => some { p with components := p.components.dropLast }

/-- `Path::file_name`: the last component, except that a trailing `..`
has no file name. -/
def RustPath.fileName (p : RustPath) : Option String :=
  match p.components.getLast? with
  | some c => if c = ".." then none else some c
  | none => none

/-- `Path::starts_with`: same kind of path and a component-wise
whole-component prefix. -/
def RustPath.startsWith (p root : RustPath) : Bool :=
  root.absolute = p.absolute && root.components.isPrefixOf p.components

/-- Whether any component contains a NUL byte. -/
def RustPath.hasNul (p : RustPath) : Bool :=
  p.components.any (fun c => c.toList.any (fun ch => ch = Char.ofNat 0))

/-- Result of a sandboxed filesystem call.  `panicked` records the one
spot where the source can panic (`full_path.file_name().unwrap()` on a
path with no file name). -/
inductive FsOutcome (α : Type) where
  | ok (a : α)
  | err (msg : String)
  | panicked
deriving DecidableEq, Repr

/-- `FsAPI::resolve_path`, parameterised by the operating system's
`canonicalize` (symlink/existence resolution is environment behaviour,
so it enters the model as an oracle `canon : RustPath → Option
RustPath`, `none` meaning the OS call failed).  Join the relative path
onto the sandbox root, canonicalise (falling back to canonicalising the
parent and re-attaching the file name), and reject any result that does
not start with the root. -/
def resolvePath (canon : RustPath → Option RustPath) (root rel : RustPath) :
    FsOutcome RustPath :=
  let fullPath := root.join rel
  match canon fullPath with
  | some canonical =>
    if canonical.startsWith root then .ok canonical else .err "Path escapes sandbox"
  | none =>
    match fullPath.parent with
    | some par =>
      match canon par with
      | some p =>
        match fullPath.fileName with
        | some name =>
          let canonical := p.join { absolute := false, components := [name] }
          if canonical.startsWith root then .ok canonical
          else .err "Path escapes sandbox"
        | none => .panicked
      | none => .err "Path resolution failed"
    | none => .err "Path resolution failed"

/-- `FsAPI::read_file`: resolve, then hand the resolved path to the
operating system's `fs::read` (oracle `osRead`). -/
def readFile (canon : RustPath → Option RustPath)
    (osRead : RustPath → Except String (List Nat)) (root : RustPath) (path : RustPath) :
    FsOutcome (List Nat) :=
  match resolvePath canon root path with
  | .ok fullPath =>
    match osRead fullPath with
    | .ok data => .ok data
    | .error e => .err s!"Failed to read file: {e}"
  | .err e => .err e
  | .panicked => .panicked

/-- `FsAPI::write_file`: resolve, create the parent directory, then hand
the resolved path to the operating system's `fs::write` (oracle
`osWrite`). -/
def writeFile (canon : RustPath → Option RustPath)
    (osWrite : RustPath → Except String Unit) (root : RustPath) (path : RustPath) :
    FsOutcome Unit :=
  match resolvePath canon root path with
  | .ok fullPath =>
    match osWrite fullPath with
    | .ok _ => .ok ()
    | .error e => .err s!"Failed to write file: {e}"
  | .err e => .err e
  | .panicked => .panicked

/-! ## Concrete fixtures

Mirrors of the repository's own test helpers (`create_test_node`,
`Job::new` + descriptor literals), used to evaluate the embedded
operations on concrete inputs. -/

/-- An unallocated GPU with the given device id (cf. `create_test_node`
in `scheduler.rs`). -/
def mkGpu (deviceId : String) : GpuDevice :=
  { deviceId := deviceId,
    deviceName := "NVIDIA A100",
    uuid := "GPU-" ++ deviceId,
    totalMemory := 80,
    freeMemory := 80,
    temperature := 40,
    allocated := false,
    allocatedJobId := none }

/-- A healthy node with the given id and GPUs and a fresh heartbeat at
time 0. -/
def mkNode (id : String) (gpus : List GpuDevice) : Node :=
  { id := id,
    hostname := id ++ ".local",
    ipAddress := "192.168.1.1",
    topology := { gpus := gpus },
    health := .Healthy,
    lastHeartbeat := 0,
    runningJobs := [] }

/-- A newly constructed job (`Job::new`): `Pending`, nothing allocated. -/
def mkJob (id : String) (priority : Int) (gpuCount : Nat) (gang : Bool) : Job :=
  { id := id,
    priority := priority,
    gangSchedule := gang,
    gpuCount := gpuCount,
    state := .Pending,
    submitTime := 0,
    scheduleTime := none,
    startTime := none,
    endTime := none,
    allocatedNodes := [],
    allocatedGpus := [],
    retryCount := 0,
    message := "" }

/-- A scheduler state over the given registry with nothing submitted. -/
def emptyState (reg : NodeRegistry) : SchedulerState :=
  { nodes := reg, pendingQueue := [], jobs := [] }

/-- `SchedulerConfig::default()`. -/
def defaultConfig : SchedulerConfig :=
  { maxScheduleBatch := 100,
    backfillEnabled := true,
    topologyAware := true,
    preferSameNode := true,
    jobTimeoutSecs := 86400,
    heartbeatTimeoutSecs := 60 }

/-- One healthy node with a single free GPU. -/
def oneGpuRegistry : NodeRegistry :=
  { nodes := [mkNode "node-1" [mkGpu "cuda:0"]], heartbeatTimeoutSeconds := 60 }

/-- Default config except `max_schedule_batch = 1`: only the first
queue entry is attempted. -/
def batchOneConfig : SchedulerConfig :=
  { defaultConfig with maxScheduleBatch := 1 }

/-- A priority-10 one-GPU gang job submitted before a priority-100
one-GPU gang job, over a single node with one free GPU: the scenario of
a priority-ordering scheduling cycle. -/
def c1State : SchedulerState :=
  (submit (submit (emptyState oneGpuRegistry) 0 (mkJob "job-low" 10 1 true)).1
    0 (mkJob "job-high" 100 1 true)).1

/-- A store holding one job already in the terminal state
`Completed`. -/
def c2State : SchedulerState :=
  { nodes := { nodes := [], heartbeatTimeoutSeconds := 60 },
    pendingQueue := [],
    jobs := [("job-done", (mkJob "job-done" 0 1 true).transition 0 .Completed "done")] }

/-- One queued one-GPU gang job over a single node with one free GPU. -/
def c3State : SchedulerState :=
  (submit (emptyState oneGpuRegistry) 0 (mkJob "job-a" 50 1 true)).1

/-- One healthy node carrying no GPUs at all. -/
def zeroGpuRegistry : NodeRegistry :=
  { nodes := [mkNode "node-1" []], heartbeatTimeoutSeconds := 60 }

/-- A gang job requiring zero GPUs, queued over a healthy node with no
free GPUs (so the free-GPU sum over candidate nodes is 0 =
`gpu_count`). -/
def c4State : SchedulerState :=
  (submit (emptyState zeroGpuRegistry) 0 (mkJob "job-zero" 0 0 true)).1

/-- Two healthy nodes with one and two free GPUs. -/
def threeGpuRegistry : NodeRegistry :=
  { nodes := [mkNode "node-1" [mkGpu "cuda:0"],
              mkNode "node-2" [mkGpu "cuda:1", mkGpu "cuda:2"]],
    heartbeatTimeoutSeconds := 60 }

/-- A gang job requiring exactly the three free GPUs of
`threeGpuRegistry`, queued alone. -/
def c4ExactState : SchedulerState :=
  (submit (emptyState threeGpuRegistry) 0 (mkJob "job-gang" 50 3 true)).1

/-- A gang job requiring one GPU more than `threeGpuRegistry` offers,
queued alone. -/
def c4OverState : SchedulerState :=
  (submit (emptyState threeGpuRegistry) 0 (mkJob "job-big" 50 4 true)).1

/-- Default config with a one-second job timeout. -/
def timeoutOneConfig : SchedulerConfig :=
  { defaultConfig with jobTimeoutSecs := 1 }

/-- A `Running` job whose recorded `start_time` (10) lies in the future
of the observation instant used against it (5), with no allocated
nodes. -/
def c6RunningJob : Job :=
  { mkJob "job-future" 0 1 true with state := .Running, startTime := some 10 }

/-- Store holding only `c6RunningJob`, with an empty registry. -/
def c6State : SchedulerState :=
  { nodes := { nodes := [], heartbeatTimeoutSeconds := 60 },
    pendingQueue := [],
    jobs := [("job-future", c6RunningJob)] }

/-- A canonicalisation oracle describing a POSIX-like filesystem in
which every NUL-free path exists and is already canonical, while any
path containing a NUL byte makes the underlying system call fail. -/
def nulCanon : RustPath → Option RustPath :=
  fun p => if p.hasNul then none else some p

/-- The default sandbox root `/tmp/zenith_sandbox`. -/
def sandboxRoot : RustPath :=
  { absolute := true, components := ["tmp", "zenith_sandbox"] }

/-- A relative path whose single component contains a NUL byte. -/
def nulRel : RustPath :=
  { absolute := false, components := ["a\x00"] }

/-- A capacity-2 ring holding the two items 10 and 11 (two pushes, no
pops): a full ring. -/
def fullRing2 : SpscRing Nat :=
  { buffer := [some 10, some 11], capacity := 2, mask := 1, head := 2, tail := 0 }

/-! # Theorems -/

/-! ## Plugin chain helper lemmas -/

theorem chainStep_false (r : PluginResult) : chainStep false r = false := by
  cases r with
  | ok b => cases b <;> rfl
  | err => rfl

theorem foldl_chainStep_false (rs : List PluginResult) :
    rs.foldl chainStep false = false := by
  induction rs with
  | nil => rfl
  | cons r rs ih => rw [List.foldl_cons, chainStep_false]; exact ih

theorem chainAllowed_false_iff (rs : List PluginResult) :
    chainAllowed rs = false ↔ PluginResult.ok false ∈ rs := by
  induction rs with
  | nil => simp [chainAllowed]
  | cons r rs ih =>
    cases r with
    | ok b =>
      cases b with
      | false =>
        simp only [chainAllowed, List.foldl_cons, chainStep]
        simpa using foldl_chainStep_false rs
      | true =>
        simp only [chainAllowed, List.foldl_cons, chainStep] at ih ⊢
        simp [ih]
    | err =>
      simp only [chainAllowed, List.foldl_cons, chainStep] at ih ⊢
      simp [ih]

theorem onEvent_eq_ok_false_iff (o : WasmCallOutcome) :
    onEvent o = PluginResult.ok false ↔ o = WasmCallOutcome.value 0 := by
  cases o with
  | noExport => simp [onEvent]
  | trap => simp [onEvent]
  | value v => simp [onEvent]

/-- C5: an event popped by the engine's consumer loop is dropped iff
some registered plugin's `on_event` call returns `Ok(false)` — which
happens exactly when the exported predicate returns the value 0; a call
that returns `Err` is only logged and never changes the verdict (it is
treated as allow); and if no plugin returns 0 the event is accepted. -/
theorem c5_plugin_chain_verdict (outcomes l1 l2 : List WasmCallOutcome) :
    (consumerVerdict outcomes = false ↔ WasmCallOutcome.value 0 ∈ outcomes) ∧
    consumerVerdict (l1 ++ WasmCallOutcome.trap :: l2) = consumerVerdict (l1 ++ l2) ∧
    ((∀ o ∈ outcomes, o ≠ WasmCallOutcome.value 0) → consumerVerdict outcomes = true) := by
  have hmain : consumerVerdict outcomes = false ↔ WasmCallOutcome.value 0 ∈ outcomes := by
    rw [consumerVerdict, chainAllowed_false_iff]
    constructor
    · intro h
      rcases List.mem_map.mp h with ⟨o, ho, hoe⟩
      exact (onEvent_eq_ok_false_iff o).mp hoe ▸ ho
    · intro h
      exact List.mem_map.mpr ⟨_, h, (onEvent_eq_ok_false_iff _).mpr rfl⟩
  refine ⟨hmain, ?_, ?_⟩
  · simp [consumerVerdict, chainAllowed, List.map_append, List.foldl_append, onEvent,
      chainStep]
  · intro h
    by_contra hfalse
    have : consumerVerdict outcomes = false := by
      cases hv : consumerVerdict outcomes with
      | false => rfl
      | true => exact absurd hv hfalse
    exact h _ (hmain.mp this) rfl

/-- Witness for C5: a chain containing a plugin that returns 0 drops
the event; a trap changes nothing; a chain with no zero-returning
plugin accepts. -/
theorem c5_plugin_chain_verdict_witness :
    consumerVerdict
        [WasmCallOutcome.noExport, WasmCallOutcome.trap, WasmCallOutcome.value 0] = false ∧
    consumerVerdict ([WasmCallOutcome.value 3] ++ WasmCallOutcome.trap :: []) =
      consumerVerdict ([WasmCallOutcome.value 3] ++ []) ∧
    consumerVerdict [WasmCallOutcome.noExport, WasmCallOutcome.value 5] = true :=
  ⟨(c5_plugin_chain_verdict
      [WasmCallOutcome.noExport, WasmCallOutcome.trap, WasmCallOutcome.value 0]
      [] []).1.mpr (by decide),
   (c5_plugin_chain_verdict [] [WasmCallOutcome.value 3] []).2.1,
   (c5_plugin_chain_verdict [WasmCallOutcome.noExport, WasmCallOutcome.value 5]
      [] []).2.2 (by decide)⟩

/-- C8: `zenith_publish` returns 0 on success, −1 when the engine,
array or schema pointer is null, −2 when the ring push fails
(buffer full), −4 when the Arrow C Data Interface conversion fails,
and −3 when a panic is caught by the `catch_unwind` barrier; in every
case it returns one of these five status codes, never unwinding across
the FFI boundary. -/
theorem c8_publish_status_codes (engineNull arrayNull schemaNull : Bool)
    (guarded : Caught PublishAttempt) :
    ((engineNull || arrayNull || schemaNull) = true →
      zenithPublish engineNull arrayNull schemaNull guarded = -1) ∧
    ((engineNull || arrayNull || schemaNull) = false →
      (guarded = Caught.panicked →
        zenithPublish engineNull arrayNull schemaNull guarded = -3) ∧
      (∀ attempt, guarded = Caught.ok attempt →
        ((∃ e, attempt.conversion = .error e) →
          zenithPublish engineNull arrayNull schemaNull guarded = -4) ∧
        ((∃ u, attempt.conversion = .ok u) → (∃ e, attempt.push = .error e) →
          zenithPublish engineNull arrayNull schemaNull guarded = -2) ∧
        ((∃ u, attempt.conversion = .ok u) → (∃ u, attempt.push = .ok u) →
          zenithPublish engineNull arrayNull schemaNull guarded = 0))) ∧
    (zenithPublish engineNull arrayNull schemaNull guarded = 0 ∨
      zenithPublish engineNull arrayNull schemaNull guarded = -1 ∨
      zenithPublish engineNull arrayNull schemaNull guarded = -2 ∨
      zenithPublish engineNull arrayNull schemaNull guarded = -3 ∨
      zenithPublish engineNull arrayNull schemaNull guarded = -4) := by
  refine ⟨?_, ?_, ?_⟩
  · intro h
    simp [zenithPublish, h]
  · intro h
    refine ⟨?_, ?_⟩
    · intro hg
      simp [zenithPublish, h, hg]
    · intro attempt hg
      refine ⟨?_, ?_, ?_⟩
      · rintro ⟨e, he⟩
        simp [zenithPublish, h, hg, publishBody, he]
      · rintro ⟨u, hu⟩ ⟨e, he⟩
        simp [zenithPublish, h, hg, publishBody, hu, he]
      · rintro ⟨u, hu⟩ ⟨u2, hu2⟩
        simp [zenithPublish, h, hg, publishBody, hu, hu2]
  · by_cases h : (engineNull || arrayNull || schemaNull) = true
    · right; left; simp [zenithPublish, h]
    · have h' : (engineNull || arrayNull || schemaNull) = false := by
        simpa using h
      cases guarded with
      | panicked => right; right; right; left; simp [zenithPublish, h']
      | ok attempt =>
        cases hc : attempt.conversion with
        | error e =>
          right; right; right; right
          simp [zenithPublish, h', publishBody, hc]
        | ok u =>
          cases hp : attempt.push with
          | error e =>
            right; right; left
            simp [zenithPublish, h', publishBody, hc, hp]
          | ok u2 =>
            left
            simp [zenithPublish, h', publishBody, hc, hp]

/-- Witness for C8: with valid pointers, a successful conversion and a
full ring, the call returns −2. -/
theorem c8_publish_status_codes_witness :
    zenithPublish false false false
      (Caught.ok { conversion := .ok (), push := .error () }) = -2 :=
  ((c8_publish_status_codes false false false
      (Caught.ok { conversion := .ok (), push := .error () })).2.1 rfl).2
    { conversion := .ok (), push := .error () } rfl
    |>.2.1 ⟨(), rfl⟩ ⟨(), rfl⟩

/-- C9 (amended): for every canonicalisation oracle, every path whose
canonicalisation falls outside the sandbox root is rejected with an
error by `resolve_path` — indeed every path `resolve_path` accepts
starts with the root — and `read_file`/`write_file` propagate the
rejection.  (No null-byte check exists in this layer; see the
counterexample.) -/
theorem c9_sandbox_escape_rejected (canon : RustPath → Option RustPath)
    (osRead : RustPath → Except String (List Nat))
    (osWrite : RustPath → Except String Unit)
    (root rel : RustPath) :
    (∀ p, resolvePath canon root rel = .ok p → p.startsWith root = true) ∧
    (∀ c, canon (root.join rel) = some c → c.startsWith root = false →
      resolvePath canon root rel = .err "Path escapes sandbox") ∧
    (∀ msg, resolvePath canon root rel = .err msg →
      readFile canon osRead root rel = .err msg ∧
      writeFile canon osWrite root rel = .err msg) := by
  refine ⟨?_, ?_, ?_⟩
  · intro p h
    simp only [resolvePath] at h
    cases hc : canon (root.join rel) with
    | some c =>
      simp only [hc] at h
      by_cases hs : c.startsWith root = true
      · simp [hs] at h
        exact h ▸ hs
      · simp [hs] at h
    | none =>
      simp only [hc] at h
      cases hp : (root.join rel).parent with
      | none => simp [hp] at h
      | some par =>
        simp only [hp] at h
        cases hcp : canon par with
        | none => simp [hcp] at h
        | some q =>
          simp only [hcp] at h
          cases hf : (root.join rel).fileName with
          | none => simp [hf] at h
          | some name =>
            simp only [hf] at h
            by_cases hs :
                (q.join { absolute := false, components := [name] }).startsWith root = true
            · simp [hs] at h
              exact h ▸ hs
            · simp [hs] at h
  · intro c hc hs
    simp only [resolvePath]
    rw [hc]
    simp [hs]
  · intro msg h
    constructor
    · unfold readFile
      rw [h]
    · unfold writeFile
      rw [h]

/-- Witness for C9: under a POSIX-like oracle, a `..` that
canonicalises to the parent of the sandbox root is rejected, and
`read_file` surfaces the same error. -/
theorem c9_sandbox_escape_rejected_witness :
    resolvePath (fun _ => some { absolute := true, components := ["tmp"] })
      sandboxRoot { absolute := false, components := [".."] } =
      .err "Path escapes sandbox" ∧
    readFile (fun _ => some { absolute := true, components := ["tmp"] })
      (fun _ => .ok []) sandboxRoot { absolute := false, components := [".."] } =
      .err "Path escapes sandbox" := by
  have h := c9_sandbox_escape_rejected
    (fun _ => some { absolute := true, components := ["tmp"] })
    (fun _ => .ok []) (fun _ => .ok ())
    sandboxRoot { absolute := false, components := [".."] }
  have h1 := h.2.1 { absolute := true, components := ["tmp"] } rfl (by decide)
  exact ⟨h1, (h.2.2 "Path escapes sandbox" h1).1⟩

/-- Counterexample for C9: the sandbox layer performs no null-byte
check.  Under a canonicalisation oracle on which the OS call fails for
the NUL-carrying path but succeeds for its parent (POSIX behaviour),
`resolve_path` falls back to the parent, re-attaches the NUL-carrying
file name, and returns `Ok` — the path containing a null byte is not
rejected, contrary to the claim. -/
theorem c9_nul_byte_accepted_cex :
    nulRel.hasNul = true ∧
    resolvePath nulCanon sandboxRoot nulRel =
      .ok { absolute := true, components := ["tmp", "zenith_sandbox", "a\x00"] } := by
  constructor
  · decide
  · rfl

/-! ## Job store helper lemmas -/

theorem jobsLookup_map (f : Job → Job) (jobs : List (String × Job)) (jobId : String) :
    jobsLookup (jobs.map (fun p => (p.1, f p.2))) jobId = (jobsLookup jobs jobId).map f := by
  induction jobs with
  | nil => rfl
  | cons p rest ih =>
    by_cases h : p.1 = jobId
    · simp [jobsLookup, List.find?_cons, h]
    · simp only [jobsLookup, List.map_cons, List.find?_cons] at ih ⊢
      simp only [h, decide_False]
      exact ih

theorem jobsLookup_update_self (jobs : List (String × Job)) (jobId : String) (j : Job)
    (h : (jobsLookup jobs jobId).isSome) :
    jobsLookup (jobsUpdate jobs jobId j) jobId = some j := by
  induction jobs with
  | nil => simp [jobsLookup] at h
  | cons p rest ih =>
    by_cases hp : p.1 = jobId
    · simp [jobsLookup, jobsUpdate, List.find?_cons, hp]
    · simp only [jobsLookup, jobsUpdate, List.map_cons, List.find?_cons, hp] at h ih ⊢
      simp only [hp, if_false, decide_False] at h ⊢
      exact ih h

theorem cleanup_jobs_eq (st : SchedulerState) (cfg : SchedulerConfig) (now : Int) :
    (cleanupZombieJobs st cfg now).2.jobs =
      st.jobs.map (fun p => (p.1, (cleanupJob st.nodes cfg now p.2).1)) := by
  simp [cleanupZombieJobs, List.map_map, Function.comp]

/-- C1: over one node with one free GPU and `max_schedule_batch = 1`, a
priority-10 job submitted before a priority-100 job is the one
attempted and placed — `PriorityQueue::iter()` yields the underlying
index map's insertion order, not priority order — so the
higher-priority job is skipped and stays queued, contrary to the
descending-priority iteration the code's own comment ("Process jobs in
priority order") and the spec describe. -/
theorem c1_queue_iteration_ignores_priority :
    (scheduleCycle c1State batchOneConfig 0).1.map SchedulingDecision.jobId = ["job-low"] ∧
    ((jobsLookup (scheduleCycle c1State batchOneConfig 0).2.jobs "job-high").map Job.state =
      some JobState.Queued) ∧
    (scheduleCycle c1State batchOneConfig 0).2.pendingQueue.map Prod.fst = ["job-high"] :=
  ⟨rfl, rfl, rfl⟩

/-- Counterexample for C2: `mark_job_started` on a job already in the
terminal state `Completed` returns `Ok` and moves it to `Running` —
the terminal state is not preserved and no `Err` is produced. -/
theorem c2_terminal_state_mutation_cex :
    ∃ st', markJobStarted c2State 5 "job-done" = .ok st' ∧
      (jobsLookup st'.jobs "job-done").map Job.state = some JobState.Running :=
  ⟨_, rfl, rfl⟩

/-- C2 (amended): for a job held in a terminal state, `cancel` rejects
the call with a descriptive `Err` and `cleanup_zombie_jobs` leaves the
job untouched — but `Job::transition` validates nothing, so
`mark_job_started` (and likewise `mark_job_completed`) returns `Ok`
and moves even a terminal-state job to `Running`. -/
theorem c2_terminal_transitions_amended (st : SchedulerState) (cfg : SchedulerConfig)
    (now : Int) (jobId reason : String) (job : Job)
    (hfound : jobsLookup st.jobs jobId = some job)
    (hterm : job.state.isTerminal = true) :
    (∃ msg, cancel st now jobId reason = .error msg) ∧
    jobsLookup (cleanupZombieJobs st cfg now).2.jobs jobId = some job ∧
    (∃ st', markJobStarted st now jobId = .ok st' ∧
      jobsLookup st'.jobs jobId =
        some (job.transition now .Running "Job started on node") ∧
      (job.transition now .Running "Job started on node").state = JobState.Running ∧
      job.state ≠ JobState.Running) := by
  have hrun : job.state ≠ JobState.Running := by
    intro he
    rw [he] at hterm
    simp [JobState.isTerminal] at hterm
  refine ⟨?_, ?_, ?_⟩
  · refine ⟨s!"Cannot cancel job in state {reprStr job.state}", ?_⟩
    simp only [cancel, hfound]
    cases hjs : job.state <;> rw [hjs] at hterm <;>
      simp only [JobState.isTerminal, Bool.false_eq_true] at hterm
  · rw [cleanup_jobs_eq]
    refine (jobsLookup_map (fun j => (cleanupJob st.nodes cfg now j).1) st.jobs
      jobId).trans ?_
    rw [hfound]
    simp [cleanupJob, hrun]
  · refine ⟨{ st with jobs := jobsUpdate st.jobs jobId (job.transition now .Running "Job started on node") }, ?_, ?_, rfl, hrun⟩
    · simp [markJobStarted, hfound]
    · exact jobsLookup_update_self st.jobs jobId _ (by rw [hfound]; rfl)

/-- Witness for C2's amended theorem, at the concrete store holding a
`Completed` job. -/
theorem c2_terminal_transitions_amended_witness :
    (∃ msg, cancel c2State 5 "job-done" "user request" = .error msg) ∧
    jobsLookup (cleanupZombieJobs c2State defaultConfig 5).2.jobs "job-done" =
      some ((mkJob "job-done" 0 1 true).transition 0 .Completed "done") ∧
    (∃ st', markJobStarted c2State 5 "job-done" = .ok st' ∧
      jobsLookup st'.jobs "job-done" =
        some (((mkJob "job-done" 0 1 true).transition 0 .Completed "done").transition 5
          .Running "Job started on node") ∧
      (((mkJob "job-done" 0 1 true).transition 0 .Completed "done").transition 5
          .Running "Job started on node").state = JobState.Running ∧
      ((mkJob "job-done" 0 1 true).transition 0 .Completed "done").state ≠
        JobState.Running) :=
  c2_terminal_transitions_amended c2State defaultConfig 5 "job-done" "user request"
    ((mkJob "job-done" 0 1 true).transition 0 .Completed "done") rfl rfl

/-- C3: `schedule_cycle` computes its decisions against clones of the
registry's nodes and never writes the registry back — no
`allocate_gpus` call is reachable from it.  In general the registry
after a cycle is exactly the registry before it; concretely, after a
cycle that places `job-a` on `node-1` with GPU `cuda:0`, the
registry's `node-1` still has `running_jobs = []` and `cuda:0` still
unallocated, contrary to the claimed registry/decision consistency. -/
theorem c3_schedule_cycle_leaves_registry_unchanged :
    (∀ st cfg now, (scheduleCycle st cfg now).2.nodes = st.nodes) ∧
    (scheduleCycle c3State defaultConfig 0).1.map
        (fun d => (d.jobId, d.allocations)) = [("job-a", [("node-1", ["cuda:0"])])] ∧
    (scheduleCycle c3State defaultConfig 0).2.nodes.nodes.map
        (fun n => (n.runningJobs, n.topology.gpus.map (fun g => (g.allocated, g.allocatedJobId)))) =
      [([], [(false, none)])] := by
  refine ⟨fun st cfg now => rfl, rfl, rfl⟩

/-- Counterexample for C6: a `Running` job whose `start_time` (10) lies
ahead of `now` (5) has `now − start_time = −5`, which does not exceed
the 1-second timeout — yet `(now − start_time).num_seconds() as u64`
wraps the negative difference to `2^64 − 5`, so `cleanup_zombie_jobs`
counts the job and transitions it to `Timeout` (its empty node list
rules the unhealthy-node arm out). -/
theorem c6_future_start_time_cex :
    ((5 : Int) - 10 ≤ 1) ∧
    c6RunningJob.allocatedNodes = [] ∧
    (cleanupZombieJobs c6State timeoutOneConfig 5).1 = 1 ∧
    (jobsLookup (cleanupZombieJobs c6State timeoutOneConfig 5).2.jobs "job-future").map
        Job.state = some JobState.Timeout :=
  ⟨by decide, rfl, rfl, rfl⟩

/-! ## GPU allocation helper lemmas -/

theorem allocMark_zero (jobId : String) (gpus : List GpuDevice) :
    allocMark jobId gpus 0 = (gpus, []) := by
  cases gpus <;> rfl

theorem allocMark_snd (jobId : String) (gpus : List GpuDevice) (count : Nat) :
    (allocMark jobId gpus count).2 =
      ((gpus.filter (fun g => !g.allocated)).take count).map (fun g => g.deviceId) := by
  induction gpus generalizing count with
  | nil => cases count <;> simp [allocMark]
  | cons g rest ih =>
    cases count with
    | zero => simp [allocMark_zero]
    | succ k =>
      by_cases hg : g.allocated
      · simp [allocMark, hg, ih]
      · simp [allocMark, hg, ih]

theorem allocMark_fst_pointwise (jobId : String) (gpus : List GpuDevice) (count : Nat) :
    List.Forall₂ (fun g g' => g' = g ∨
        (g.allocated = false ∧
          g' = { g with allocated := true, allocatedJobId := some jobId }))
      gpus (allocMark jobId gpus count).1 := by
  induction gpus generalizing count with
  | nil => cases count <;> simp [allocMark]
  | cons g rest ih =>
    cases count with
    | zero =>
      rw [allocMark_zero]
      exact List.forall₂_same.mpr (fun x _ => Or.inl rfl)
    | succ k =>
      by_cases hg : g.allocated
      · have hcons : (allocMark jobId (g :: rest) (k + 1)).1 =
            g :: (allocMark jobId rest (k + 1)).1 := by
          simp [allocMark, hg]
        rw [hcons]
        exact List.Forall₂.cons (Or.inl rfl) (ih (k + 1))
      · have hcons : (allocMark jobId (g :: rest) (k + 1)).1 =
            { g with allocated := true, allocatedJobId := some jobId } ::
              (allocMark jobId rest k).1 := by
          simp [allocMark, hg]
        rw [hcons]
        exact List.Forall₂.cons (Or.inr ⟨by simpa using hg, rfl⟩) (ih k)

theorem allocMark_filter_length (jobId : String) (gpus : List GpuDevice) (count : Nat)
    (h : count ≤ (gpus.filter (fun g => !g.allocated)).length) :
    ((allocMark jobId gpus count).1.filter (fun g => !g.allocated)).length =
      (gpus.filter (fun g => !g.allocated)).length - count := by
  induction gpus generalizing count with
  | nil =>
    cases count with
    | zero => simp [allocMark_zero]
    | succ k => simp at h
  | cons g rest ih =>
    cases count with
    | zero => simp [allocMark_zero]
    | succ k =>
      by_cases hg : g.allocated
      · have hfil : ∀ l : List GpuDevice,
            (g :: l).filter (fun x => !x.allocated) = l.filter (fun x => !x.allocated) := by
          intro l
          simp [List.filter_cons, hg]
        have hcons : (allocMark jobId (g :: rest) (k + 1)).1 =
            g :: (allocMark jobId rest (k + 1)).1 := by
          simp [allocMark, hg]
        rw [hfil] at h
        rw [hcons, hfil ((allocMark jobId rest (k + 1)).1), hfil rest]
        exact ih (k + 1) h
      · have hga : g.allocated = false := by simpa using hg
        have hfil : ∀ l : List GpuDevice,
            (g :: l).filter (fun x => !x.allocated) = g :: l.filter (fun x => !x.allocated) := by
          intro l
          simp [List.filter_cons, hga]
        have hcons : (allocMark jobId (g :: rest) (k + 1)).1 =
            { g with allocated := true, allocatedJobId := some jobId } ::
              (allocMark jobId rest k).1 := by
          simp [allocMark, hg]
        rw [hfil] at h
        simp only [List.length_cons] at h
        have hk : k ≤ (rest.filter (fun x => !x.allocated)).length := by omega
        rw [hcons, hfil]
        simp only [List.filter_cons, List.length_cons]
        rw [if_neg (by simp)]
        rw [ih k hk]
        omega

/-- C10: with fewer than `count` unallocated GPUs, `allocate_gpus`
returns `Err` and leaves the node completely unchanged; with at least
`count` unallocated GPUs it returns `Ok` with the device ids of
exactly the first `count` unallocated GPUs (so exactly `count` ids),
appends the job id once to `running_jobs`, reduces the unallocated
count by exactly `count`, and changes a GPU only by marking it
allocated to this job. -/
theorem c10_allocate_gpus_spec (n : Node) (jobId : String) (count : Nat) :
    (n.availableGpus < count →
      (n.allocateGpus jobId count).1 = n ∧
        ∃ msg, (n.allocateGpus jobId count).2 = .error msg) ∧
    (count ≤ n.availableGpus →
      ∃ n' ids, n.allocateGpus jobId count = (n', .ok ids) ∧
        ids = ((n.topology.gpus.filter (fun g => !g.allocated)).take count).map
          (fun g => g.deviceId) ∧
        ids.length = count ∧
        n'.runningJobs = n.runningJobs ++ [jobId] ∧
        n'.availableGpus = n.availableGpus - count ∧
        List.Forall₂ (fun g g' => g' = g ∨
          (g.allocated = false ∧
            g' = { g with allocated := true, allocatedJobId := some jobId }))
          n.topology.gpus n'.topology.gpus) := by
  have hlen : ((n.topology.gpus.filter (fun g => !g.allocated)).take count).length =
      min count n.availableGpus := by
    simp [Node.availableGpus, List.length_take]
  constructor
  · intro h
    have hlt : ((n.topology.gpus.filter (fun g => !g.allocated)).take count).length <
        count := by
      rw [hlen]
      omega
    constructor
    · simp only [Node.allocateGpus]
      rw [if_pos hlt]
    · exact ⟨_, by simp only [Node.allocateGpus]; rw [if_pos hlt]⟩
  · intro h
    have hnlt : ¬ ((n.topology.gpus.filter (fun g => !g.allocated)).take count).length <
        count := by
      rw [hlen]
      omega
    have havail : count ≤ (n.topology.gpus.filter (fun g => !g.allocated)).length := h
    refine ⟨{ n with topology := { n.topology with gpus := (allocMark jobId n.topology.gpus count).1 }, runningJobs := n.runningJobs ++ [jobId] }, (allocMark jobId n.topology.gpus count).2, ?_, allocMark_snd jobId n.topology.gpus count, ?_, rfl, ?_, allocMark_fst_pointwise jobId n.topology.gpus count⟩
    · simp only [Node.allocateGpus]
      rw [if_neg hnlt]
    · rw [allocMark_snd]
      simp only [List.length_map, List.length_take]
      rw [show (n.topology.gpus.filter (fun g => !g.allocated)).length = n.availableGpus
        from rfl]
      omega
    · show ((allocMark jobId n.topology.gpus count).1.filter (fun g => !g.allocated)).length
        = n.availableGpus - count
      exact allocMark_filter_length jobId n.topology.gpus count havail

/-- Witness for C10: on a node with two free GPUs, requesting three
fails with the node unchanged, and requesting one succeeds with one
device id. -/
theorem c10_allocate_gpus_spec_witness :
    (((mkNode "node-1" [mkGpu "cuda:0", mkGpu "cuda:1"]).allocateGpus "job-1" 3).1 =
        mkNode "node-1" [mkGpu "cuda:0", mkGpu "cuda:1"] ∧
      ∃ msg, ((mkNode "node-1" [mkGpu "cuda:0", mkGpu "cuda:1"]).allocateGpus
        "job-1" 3).2 = .error msg) ∧
    ∃ n' ids, (mkNode "node-1" [mkGpu "cuda:0", mkGpu "cuda:1"]).allocateGpus "job-1" 1 =
      (n', .ok ids) ∧ ids.length = 1 := by
  constructor
  · exact (c10_allocate_gpus_spec (mkNode "node-1" [mkGpu "cuda:0", mkGpu "cuda:1"])
      "job-1" 3).1 (by decide)
  · obtain ⟨n', ids, heq, _, hilen, _⟩ :=
      (c10_allocate_gpus_spec (mkNode "node-1" [mkGpu "cuda:0", mkGpu "cuda:1"])
        "job-1" 1).2 (by decide)
    exact ⟨n', ids, heq, hilen⟩

/-! ## Ring buffer helper lemmas -/

theorem U64_eq : U64 = 18446744073709551616 := by norm_num [U64]

theorem wrapSub_self_eq_zero (a : Nat) (_ha : a < U64) : wrapSub a a = 0 := by
  unfold wrapSub
  rw [U64_eq]
  omega

theorem wrapSub_cancel (a b : Nat) (ha : a < U64) (_hb : b < U64) :
    wrapSub a (wrapSub a b) = b := by
  unfold wrapSub
  rw [U64_eq] at ha _hb ⊢
  omega

theorem wrapSub_succ (a b : Nat) (ha : a < U64) (_hb : b < U64) (h1 : 1 ≤ wrapSub a b) :
    wrapSub a (wrapAdd1 b) = wrapSub a b - 1 := by
  unfold wrapSub wrapAdd1
  unfold wrapSub at h1
  rw [U64_eq] at ha h1 ⊢
  omega

theorem nextPowerOfTwo_one : Nat.nextPowerOfTwo 1 = 1 := by
  unfold Nat.nextPowerOfTwo Nat.nextPowerOfTwo.go
  simp

theorem spscNew_one :
    SpscRing.new Nat 1 =
      { buffer := [none], capacity := 1, mask := 0, head := 0, tail := 0 } := by
  simp [SpscRing.new, nextPowerOfTwo_one]

/-- C7: when a well-formed ring holds `capacity` items (the wrapped
push/pop counter difference equals the capacity), `try_push` returns
`Err` carrying back exactly the item that was passed in; after one
`try_pop`, the next `try_push` succeeds.  In particular a ring created
with requested capacity 1 accepts exactly one item before `try_push`
returns `Err` with the item intact. -/
theorem c7_ring_backpressure {α : Type} (r : SpscRing α) (item : α) (hwf : r.WF) :
    (r.len = r.capacity →
      r.tryPush item = .error item ∧
      ∃ a r1, r.tryPop = some (a, r1) ∧ ∃ r2, r1.tryPush item = .ok r2) ∧
    (∃ r1 : SpscRing Nat, (SpscRing.new Nat 1).tryPush 7 = .ok r1 ∧
      r1.tryPush 8 = .error 8) := by
  obtain ⟨hh, ht, hbuf, hcap0, hcap63, hpow, hmask, hle, hslots⟩ := hwf
  constructor
  · intro hfull
    have hws : wrapSub r.head r.tail = r.capacity := hfull
    constructor
    · have hcond : r.capacity ≤ wrapSub r.head r.tail := le_of_eq hws.symm
      simp only [SpscRing.tryPush]
      rw [if_pos hcond]
    · have hne : ¬ (r.tail = r.head) := by
        intro he
        rw [he, wrapSub_self_eq_zero r.head hh] at hws
        omega
      have hidx := hslots (r.capacity - 1) (by rw [hws]; omega)
      obtain ⟨a, ha⟩ := hidx
      have h1 : r.capacity - 1 + 1 = r.capacity := by omega
      rw [h1] at ha
      have h2 : wrapSub r.head r.capacity = r.tail := by
        rw [← hws]
        exact wrapSub_cancel r.head r.tail hh ht
      rw [h2] at ha
      refine ⟨a, { r with tail := wrapAdd1 r.tail }, ?_, ?_⟩
      · simp only [SpscRing.tryPop, if_neg hne, ha]
      · have h3 : wrapSub r.head (wrapAdd1 r.tail) = r.capacity - 1 :=
          (wrapSub_succ r.head r.tail hh ht (by rw [hws]; omega)).trans (by rw [hws])
        have hc2 : ¬ (r.capacity ≤ wrapSub r.head (wrapAdd1 r.tail)) := by
          rw [h3]
          omega
        exact ⟨_, by simp only [SpscRing.tryPush]; rw [if_neg hc2]⟩
  · rw [spscNew_one]
    exact ⟨_, rfl, rfl⟩

/-- Witness for C7: the full-ring and pop-then-push behaviour at a
concrete full ring of capacity 2 holding the items 10 and 11. -/
theorem c7_ring_backpressure_witness :
    fullRing2.len = fullRing2.capacity ∧
    fullRing2.tryPush 12 = .error 12 ∧
    ∃ a r1, fullRing2.tryPop = some (a, r1) ∧ ∃ r2, r1.tryPush 12 = .ok r2 := by
  have hwf : fullRing2.WF := by
    refine ⟨by decide, by decide, by decide, by decide, by decide, ⟨1, by decide⟩,
      by decide, by decide, ?_⟩
    intro i hi
    have hi2 : i < 2 := by
      have hws2 : wrapSub fullRing2.head fullRing2.tail = 2 := by decide
      omega
    interval_cases i
    · exact ⟨11, by decide⟩
    · exact ⟨10, by decide⟩
  have hfull : fullRing2.len = fullRing2.capacity := by decide
  have h := c7_ring_backpressure fullRing2 12 hwf
  exact ⟨hfull, (h.1 hfull).1, (h.1 hfull).2⟩

/-! ## Gang scheduling helper lemmas -/

theorem Job.transition_state (j : Job) (now : Int) (s : JobState) (msg : String) :
    (j.transition now s msg).state = s := by
  cases s <;> rfl

theorem greedyAlloc_exact (candidates : List Node) (required : Nat)
    (h : required ≤ (candidates.map Node.availableGpus).sum) :
    (greedyAlloc candidates required).2 = 0 ∧
    ((greedyAlloc candidates required).1.map (fun a => a.2.length)).sum = required := by
  induction candidates generalizing required with
  | nil =>
    cases required with
    | zero => simp [greedyAlloc]
    | succ k => simp at h
  | cons node rest ih =>
    cases required with
    | zero => simp [greedyAlloc]
    | succ k =>
      have htle1 : min (k + 1) node.availableGpus ≤ k + 1 := Nat.min_le_left _ _
      have htle2 : min (k + 1) node.availableGpus ≤ node.availableGpus :=
        Nat.min_le_right _ _
      have hmin : min (k + 1) node.availableGpus = k + 1 ∨
          min (k + 1) node.availableGpus = node.availableGpus := by
        rcases Nat.le_total (k + 1) node.availableGpus with hc | hc
        · exact Or.inl (Nat.min_eq_left hc)
        · exact Or.inr (Nat.min_eq_right hc)
      simp only [List.map_cons, List.sum_cons] at h
      have hrec : k + 1 - min (k + 1) node.availableGpus ≤
          (rest.map Node.availableGpus).sum := by omega
      obtain ⟨ihrem, ihsum⟩ := ih _ hrec
      have hglen : (((node.topology.gpus.filter (fun g => !g.allocated)).take
          (min (k + 1) node.availableGpus)).map (fun g => g.deviceId)).length =
          min (k + 1) node.availableGpus := by
        simp only [List.length_map, List.length_take]
        have : (node.topology.gpus.filter (fun g => !g.allocated)).length =
            node.availableGpus := rfl
        omega
      constructor
      · show (greedyAlloc rest (k + 1 - min (k + 1) node.availableGpus)).2 = 0
        exact ihrem
      · show (((node.topology.gpus.filter (fun g => !g.allocated)).take
            (min (k + 1) node.availableGpus)).map (fun g => g.deviceId)).length +
            ((greedyAlloc rest (k + 1 - min (k + 1) node.availableGpus)).1.map
              (fun a => a.2.length)).sum = k + 1
        rw [hglen, ihsum]
        omega

theorem gangSchedule_find_none (candidates : List Node) (required : Nat)
    (hsum : (candidates.map Node.availableGpus).sum < required) :
    candidates.find? (fun n => required ≤ n.availableGpus) = none := by
  rw [List.find?_eq_none]
  intro n hn
  simp only [decide_eq_true_eq]
  intro hle
  have hmem : n.availableGpus ∈ candidates.map Node.availableGpus :=
    List.mem_map.mpr ⟨n, hn, rfl⟩
  have := List.single_le_sum (fun x _ => Nat.zero_le x) _ hmem
  omega

theorem gangSchedule_insufficient (cfg : SchedulerConfig) (job : Job)
    (candidates : List Node) (required : Nat)
    (hsum : (candidates.map Node.availableGpus).sum < required) :
    gangSchedule cfg job candidates required = none := by
  unfold gangSchedule
  have hfind := gangSchedule_find_none candidates required hsum
  by_cases hpref : cfg.preferSameNode
  · simp [hpref, hfind, hsum]
  · have hpf : cfg.preferSameNode = false := by simpa using hpref
    simp [hpf, hsum]

theorem gangSchedule_exact (cfg : SchedulerConfig) (job : Job) (candidates : List Node)
    (required : Nat)
    (hsum : (candidates.map Node.availableGpus).sum = required) :
    ∃ d, gangSchedule cfg job candidates required = some d ∧
      d.jobId = job.id ∧ d.gangAllocated = true ∧ d.totalGpus = required := by
  unfold gangSchedule
  cases hfind : (if cfg.preferSameNode then
      candidates.find? (fun n => required ≤ n.availableGpus) else none) with
  | some node =>
    have hfind2 : candidates.find? (fun n => decide (required ≤ n.availableGpus)) =
        some node := by
      by_cases hpref : cfg.preferSameNode
      · simpa [hpref] using hfind
      · simp [hpref] at hfind
    have havail : required ≤ node.availableGpus := by
      have := List.find?_some hfind2
      simpa using this
    refine ⟨{ jobId := job.id,
              allocations := [(node.id, ((node.topology.gpus.filter
                (fun g => !g.allocated)).take required).map (fun g => g.deviceId))],
              gangAllocated := true }, ?_, rfl, rfl, ?_⟩
    · rfl
    · simp only [SchedulingDecision.totalGpus, List.map_cons, List.map_nil,
        List.sum_cons, List.sum_nil, List.length_map, List.length_take]
      have : (node.topology.gpus.filter (fun g => !g.allocated)).length =
          node.availableGpus := rfl
      omega
  | none =>
    have hnlt : ¬ ((candidates.map Node.availableGpus).sum < required) := by omega
    obtain ⟨hrem, hsum2⟩ := greedyAlloc_exact candidates required (le_of_eq hsum.symm)
    refine ⟨{ jobId := job.id, allocations := (greedyAlloc candidates required).1,
              gangAllocated := true }, ?_, rfl, rfl, hsum2⟩
    rcases hga : greedyAlloc candidates required with ⟨al, rem⟩
    rw [hga] at hrem
    simp only at hrem
    subst hrem
    simp [hga, hnlt]

theorem tryScheduleJob_gang_exact (reg : NodeRegistry) (cfg : SchedulerConfig)
    (now : Int) (job : Job) (hgang : job.gangSchedule = true) (hreq : 1 ≤ job.gpuCount)
    (hsum : ((reg.nodesWithAvailableGpus now 1).map Node.availableGpus).sum =
      job.gpuCount) :
    ∃ d, tryScheduleJob reg cfg now job = some d ∧
      d.jobId = job.id ∧ d.gangAllocated = true ∧ d.totalGpus = job.gpuCount := by
  have h0 : ¬ (job.gpuCount = 0) := by omega
  have hne : (reg.nodesWithAvailableGpus now 1).isEmpty = false := by
    cases hc : reg.nodesWithAvailableGpus now 1 with
    | nil => rw [hc] at hsum; simp at hsum; omega
    | cons a l => simp [hc]
  obtain ⟨d, hd, h1, h2, h3⟩ :=
    gangSchedule_exact cfg job (reg.nodesWithAvailableGpus now 1) job.gpuCount hsum
  refine ⟨d, ?_, h1, h2, h3⟩
  unfold tryScheduleJob
  simp only [h0, if_false, hne, Bool.false_eq_true, hgang, if_true]
  exact hd

theorem tryScheduleJob_gang_over (reg : NodeRegistry) (cfg : SchedulerConfig)
    (now : Int) (job : Job)
    (hsum : ((reg.nodesWithAvailableGpus now 1).map Node.availableGpus).sum <
      job.gpuCount) :
    tryScheduleJob reg cfg now job = none := by
  have h0 : ¬ (job.gpuCount = 0) := by omega
  unfold tryScheduleJob
  simp only [h0, if_false]
  cases hne : (reg.nodesWithAvailableGpus now 1).isEmpty with
  | true => simp
  | false =>
    simp only [Bool.false_eq_true, if_false]
    cases hg : job.gangSchedule with
    | true =>
      simp only [if_true]
      exact gangSchedule_insufficient cfg job _ _ hsum
    | false =>
      simp only [Bool.false_eq_true, if_false, spreadSchedule]
      exact gangSchedule_insufficient cfg job _ _ hsum

/-- Counterexample for C4: a gang-scheduled job with `gpu_count = 0`
over a registry whose candidate free-GPU sum is 0 (one healthy node,
no GPUs) satisfies the claim's premise "gpu_count equals the sum of
unallocated GPUs across all healthy candidate nodes", but the cycle
routes it through the CPU-only path and returns a decision with
`gang_allocated = false`, not `true` as claimed. -/
theorem c4_zero_gpu_gang_cex :
    (jobsLookup c4State.jobs "job-zero").map (fun j => (j.gangSchedule, j.gpuCount)) =
      some (true, 0) ∧
    ((c4State.nodes.nodesWithAvailableGpus 0 1).map Node.availableGpus).sum = 0 ∧
    (scheduleCycle c4State defaultConfig 0).1.map
        (fun d => (d.jobId, d.allocations, d.gangAllocated)) =
      [("job-zero", [("node-1", [])], false)] :=
  ⟨rfl, rfl, rfl⟩

/-- C4 (amended): for every gang-scheduled job with `gpu_count ≥ 1`
queued alone, if its `gpu_count` equals the sum of unallocated GPUs
over the healthy candidate nodes, one scheduling cycle produces a
decision for it carrying exactly `gpu_count` GPU ids with
`gang_allocated = true`, removes it from the queue and transitions it
to `Scheduled`; if its `gpu_count` exceeds that sum, the cycle
produces no decision and leaves the scheduler state — the job still
queued — unchanged. -/
theorem c4_gang_capacity_amended (reg : NodeRegistry) (cfg : SchedulerConfig)
    (now : Int) (job : Job) (prio : Int)
    (hgang : job.gangSchedule = true) (hreq : 1 ≤ job.gpuCount)
    (hbatch : 1 ≤ cfg.maxScheduleBatch) :
    (((reg.nodesWithAvailableGpus now 1).map Node.availableGpus).sum = job.gpuCount →
      ∃ d st', scheduleCycle ⟨reg, [(job.id, prio)], [(job.id, job)]⟩ cfg now =
          ([d], st') ∧
        d.jobId = job.id ∧ d.gangAllocated = true ∧ d.totalGpus = job.gpuCount ∧
        st'.pendingQueue = [] ∧
        (jobsLookup st'.jobs job.id).map Job.state = some JobState.Scheduled) ∧
    (((reg.nodesWithAvailableGpus now 1).map Node.availableGpus).sum < job.gpuCount →
      scheduleCycle ⟨reg, [(job.id, prio)], [(job.id, job)]⟩ cfg now =
        ([], ⟨reg, [(job.id, prio)], [(job.id, job)]⟩)) := by
  have hnb : ¬ (cfg.maxScheduleBatch ≤ 0) := by omega
  have hlook : jobsLookup [(job.id, job)] job.id = some job := by
    simp [jobsLookup]
  constructor
  · intro hsum
    obtain ⟨d, hd, hid, hgangd, htot⟩ :=
      tryScheduleJob_gang_exact reg cfg now job hgang hreq hsum
    have hgo : scheduleCycleGo reg cfg now [(job.id, prio)] 0 [(job.id, job)] =
        ([d], [job.id],
          [(job.id, { job.transition now .Scheduled "Resources allocated" with
            allocatedNodes := d.allocations.map (fun a => a.1),
            allocatedGpus := d.allocations })]) := by
      simp [scheduleCycleGo, hnb, hlook, hd, jobsUpdate]
    refine ⟨d, ⟨reg, [], [(job.id, { job.transition now .Scheduled "Resources allocated" with allocatedNodes := d.allocations.map (fun a => a.1), allocatedGpus := d.allocations })]⟩, ?_, hid, hgangd, htot, rfl, ?_⟩
    · simp only [scheduleCycle, hgo]
      simp
    · simp [jobsLookup, Job.transition_state]
  · intro hsum
    have hd := tryScheduleJob_gang_over reg cfg now job hsum
    have hgo : scheduleCycleGo reg cfg now [(job.id, prio)] 0 [(job.id, job)] =
        ([], [], [(job.id, job)]) := by
      simp [scheduleCycleGo, hnb, hlook, hd]
    simp [scheduleCycle, hgo]

/-- Witness for C4's amended theorem: a gang job needing exactly the
three free GPUs of two nodes (1 + 2) is placed with three GPU ids and
`gang_allocated = true`; a gang job needing four is not placed and the
state is untouched. -/
theorem c4_gang_capacity_amended_witness :
    (∃ d st', scheduleCycle c4ExactState defaultConfig 0 = ([d], st') ∧
      d.jobId = "job-gang" ∧ d.gangAllocated = true ∧ d.totalGpus = 3 ∧
      st'.pendingQueue = [] ∧
      (jobsLookup st'.jobs "job-gang").map Job.state = some JobState.Scheduled) ∧
    scheduleCycle c4OverState defaultConfig 0 = ([], c4OverState) := by
  constructor
  · obtain ⟨d, st', heq, hid, hg, ht, hq, hs⟩ :=
      (c4_gang_capacity_amended threeGpuRegistry defaultConfig 0
        ((mkJob "job-gang" 50 3 true).transition 0 .Queued "Submitted to scheduler") 50
        rfl (by decide) (by decide)).1 (by decide)
    exact ⟨d, st', heq, hid, hg, ht, hq, hs⟩
  · exact (c4_gang_capacity_amended threeGpuRegistry defaultConfig 0
      ((mkJob "job-big" 50 4 true).transition 0 .Queued "Submitted to scheduler") 50
      rfl (by decide) (by decide)).2 (by decide)

/-! ## Zombie cleanup helper lemmas -/

theorem cleanupJob_not_running (reg : NodeRegistry) (cfg : SchedulerConfig) (now : Int)
    (j : Job) (h : j.state ≠ JobState.Running) :
    cleanupJob reg cfg now j = (j, 0) := by
  simp [cleanupJob, h]

theorem cleanupJob_timeout (reg : NodeRegistry) (cfg : SchedulerConfig) (now : Int)
    (j : Job) (s : Int) (hrun : j.state = JobState.Running)
    (ht : 0 < cfg.jobTimeoutSecs) (hst : j.startTime = some s)
    (hel : cfg.jobTimeoutSecs < elapsedU64 now s) :
    cleanupJob reg cfg now j =
      (j.transition now .Timeout
        s!"Job exceeded timeout of {cfg.jobTimeoutSecs} seconds", 1) := by
  simp [cleanupJob, hrun, ht, hst, hel]

theorem cleanupJob_dead (reg : NodeRegistry) (cfg : SchedulerConfig) (now : Int)
    (j : Job) (hrun : j.state = JobState.Running)
    (hcond : ¬ (0 < cfg.jobTimeoutSecs ∧ ∃ s, j.startTime = some s ∧
      cfg.jobTimeoutSecs < elapsedU64 now s))
    (hdead : j.allocatedNodes.any (fun nid => !reg.isNodeHealthy now nid) = true) :
    cleanupJob reg cfg now j =
      (j.transition now .Failed "Allocated node(s) became unhealthy", 1) := by
  by_cases ht : 0 < cfg.jobTimeoutSecs
  · cases hst : j.startTime with
    | none => simp [cleanupJob, hrun, hst, hdead]
    | some s =>
      have hnel : ¬ (cfg.jobTimeoutSecs < elapsedU64 now s) :=
        fun hel => hcond ⟨ht, s, hst, hel⟩
      simp [cleanupJob, hrun, hst, hnel, hdead]
  · simp [cleanupJob, hrun, ht, hdead]

theorem cleanupJob_untouched (reg : NodeRegistry) (cfg : SchedulerConfig) (now : Int)
    (j : Job) (hrun : j.state = JobState.Running)
    (hcond : ¬ (0 < cfg.jobTimeoutSecs ∧ ∃ s, j.startTime = some s ∧
      cfg.jobTimeoutSecs < elapsedU64 now s))
    (halive : j.allocatedNodes.any (fun nid => !reg.isNodeHealthy now nid) = false) :
    cleanupJob reg cfg now j = (j, 0) := by
  by_cases ht : 0 < cfg.jobTimeoutSecs
  · cases hst : j.startTime with
    | none => simp [cleanupJob, hrun, hst, halive]
    | some s =>
      have hnel : ¬ (cfg.jobTimeoutSecs < elapsedU64 now s) :=
        fun hel => hcond ⟨ht, s, hst, hel⟩
      simp [cleanupJob, hrun, hst, hnel, halive]
  · simp [cleanupJob, hrun, ht, halive]

theorem cleanupJob_snd_eq (reg : NodeRegistry) (cfg : SchedulerConfig) (now : Int)
    (j : Job) :
    (cleanupJob reg cfg now j).2 = if (cleanupJob reg cfg now j).1 ≠ j then 1 else 0 := by
  by_cases hrun : j.state ≠ JobState.Running
  · rw [cleanupJob_not_running reg cfg now j hrun]
    simp
  · have hrun2 : j.state = JobState.Running := by
      by_contra hc
      exact hrun hc
    by_cases hcond : 0 < cfg.jobTimeoutSecs ∧ ∃ s, j.startTime = some s ∧
        cfg.jobTimeoutSecs < elapsedU64 now s
    · obtain ⟨ht, s, hst, hel⟩ := hcond
      rw [cleanupJob_timeout reg cfg now j s hrun2 ht hst hel]
      have hne : j.transition now .Timeout
          s!"Job exceeded timeout of {cfg.jobTimeoutSecs} seconds" ≠ j := by
        intro he
        have := Job.transition_state j now .Timeout
          s!"Job exceeded timeout of {cfg.jobTimeoutSecs} seconds"
        rw [he, hrun2] at this
        exact absurd this (by decide)
      simp [hne]
    · cases hdead : j.allocatedNodes.any (fun nid => !reg.isNodeHealthy now nid) with
      | true =>
        rw [cleanupJob_dead reg cfg now j hrun2 hcond hdead]
        have hne : j.transition now .Failed "Allocated node(s) became unhealthy" ≠ j := by
          intro he
          have := Job.transition_state j now .Failed "Allocated node(s) became unhealthy"
          rw [he, hrun2] at this
          exact absurd this (by decide)
        simp [hne]
      | false =>
        rw [cleanupJob_untouched reg cfg now j hrun2 hcond hdead]
        simp

theorem sum_map_ite_eq_length_filter {β : Type} (q : β → Prop) [DecidablePred q]
    (l : List β) :
    (l.map (fun a => if q a then 1 else 0)).sum = (l.filter (fun a => decide (q a))).length := by
  induction l with
  | nil => rfl
  | cons a t ih =>
    by_cases h : q a
    · simp [h, ih]
      omega
    · simp [h, ih]

/-- C6 (amended): `cleanup_zombie_jobs` returns the number of jobs
whose record changed; it never touches a job that is not `Running`;
a `Running` job with a recorded start time is transitioned to
`Timeout` when `job_timeout_secs > 0` and the elapsed seconds —
`(now − start_time).num_seconds() as u64`, which wraps a negative
difference to a value near `2^64` — exceed `job_timeout_secs`;
otherwise (also whenever `job_timeout_secs = 0`, which disables the
timeout arm entirely) it is transitioned to `Failed` exactly when some
allocated node is unhealthy, and left untouched when all are
healthy. -/
theorem c6_cleanup_zombie_amended (st : SchedulerState) (cfg : SchedulerConfig)
    (now : Int) :
    (cleanupZombieJobs st cfg now).1 =
      (st.jobs.filter
        (fun p => decide ((cleanupJob st.nodes cfg now p.2).1 ≠ p.2))).length ∧
    List.Forall₂ (fun (p q : String × Job) =>
      q.1 = p.1 ∧
      (p.2.state ≠ JobState.Running → q.2 = p.2) ∧
      (p.2.state = JobState.Running →
        (∀ s, 0 < cfg.jobTimeoutSecs → p.2.startTime = some s →
          cfg.jobTimeoutSecs < elapsedU64 now s →
          q.2 = p.2.transition now .Timeout
            s!"Job exceeded timeout of {cfg.jobTimeoutSecs} seconds") ∧
        (¬ (0 < cfg.jobTimeoutSecs ∧ ∃ s, p.2.startTime = some s ∧
            cfg.jobTimeoutSecs < elapsedU64 now s) →
          (p.2.allocatedNodes.any
              (fun nid => !st.nodes.isNodeHealthy now nid) = true →
            q.2 = p.2.transition now .Failed "Allocated node(s) became unhealthy") ∧
          (p.2.allocatedNodes.any
              (fun nid => !st.nodes.isNodeHealthy now nid) = false →
            q.2 = p.2))))
      st.jobs (cleanupZombieJobs st cfg now).2.jobs := by
  constructor
  · show ((st.jobs.map (fun p => (p.1, cleanupJob st.nodes cfg now p.2))).map
      (fun p => p.2.2)).sum =
      (st.jobs.filter
        (fun p => decide ((cleanupJob st.nodes cfg now p.2).1 ≠ p.2))).length
    rw [List.map_map]
    have hmap : ((fun (p : String × (Job × Nat)) => p.2.2) ∘
        (fun p : String × Job => (p.1, cleanupJob st.nodes cfg now p.2))) =
        fun p : String × Job =>
          if (cleanupJob st.nodes cfg now p.2).1 ≠ p.2 then 1 else 0 := by
      funext p
      exact cleanupJob_snd_eq st.nodes cfg now p.2
    rw [hmap]
    exact sum_map_ite_eq_length_filter
      (fun p : String × Job => (cleanupJob st.nodes cfg now p.2).1 ≠ p.2) st.jobs
  · rw [cleanup_jobs_eq]
    rw [List.forall₂_map_right_iff]
    rw [List.forall₂_same]
    intro p _
    refine ⟨rfl, ?_, ?_⟩
    · intro hnr
      show (cleanupJob st.nodes cfg now p.2).1 = p.2
      rw [cleanupJob_not_running st.nodes cfg now p.2 hnr]
    · intro hrun
      refine ⟨?_, ?_⟩
      · intro s ht hst hel
        show (cleanupJob st.nodes cfg now p.2).1 = _
        rw [cleanupJob_timeout st.nodes cfg now p.2 s hrun ht hst hel]
      · intro hcond
        refine ⟨?_, ?_⟩
        · intro hdead
          show (cleanupJob st.nodes cfg now p.2).1 = _
          rw [cleanupJob_dead st.nodes cfg now p.2 hrun hcond hdead]
        · intro halive
          show (cleanupJob st.nodes cfg now p.2).1 = p.2
          rw [cleanupJob_untouched st.nodes cfg now p.2 hrun hcond halive]

/-- Witness for C6's amended theorem: at the same store but observed at
`now = 11` (elapsed 1 second, not exceeding the 1-second timeout, and
no allocated nodes), the cleanup count is 0. -/
theorem c6_cleanup_zombie_amended_witness :
    (cleanupZombieJobs c6State timeoutOneConfig 11).1 = 0 :=
  ((c6_cleanup_zombie_amended c6State timeoutOneConfig 11).1).trans (by decide)

end Zenith
